import Mathlib

/-!
Shallow embedding of the scan-execution pipeline of `mysql_fdw.c` (a
foreign-data wrapper that exposes a remote MySQL table to the host engine).

External collaborators (the MySQL client library, the host catalog, the
host type-input functions and encoding validator) are modelled as explicit
parameters or as symbolic constructors; every definition below is a direct
translation of the corresponding C function in `src/mysql_fdw.c`.
-/

namespace MysqlFdw

/-! ## libc `atoi`, as used on the `port` option values -/

/-- Whitespace characters skipped by `atoi`. -/
def isSpaceChar (c : Char) : Bool :=
  c == ' ' || c == '\t' || c == '\n' || c == '\x0b' || c == '\x0c' || c == '\r'

/-- Accumulate the leading decimal digits, stopping at the first non-digit. -/
def atoiDigits : List Char → Nat → Nat
  | [], acc => acc
  | c :: cs, acc => if c.isDigit then atoiDigits cs (acc * 10 + (c.toNat - 48)) else acc

/-- C `atoi`: skip whitespace, optional sign, leading digits; no digits gives 0. -/
def atoi (s : String) : Int :=
  match s.toList.dropWhile isSpaceChar with
  | '-' :: rest => -(atoiDigits rest 0 : Int)
  | '+' :: rest => (atoiDigits rest 0 : Int)
  | rest => (atoiDigits rest 0 : Int)

/-! ## Option catalog contexts and the `valid_options` table -/

/-- The three catalog contexts an option may belong to
(`ForeignServerRelationId`, `UserMappingRelationId`, `ForeignTableRelationId`). -/
inductive Catalog
  | foreignServer
  | userMapping
  | foreignTable
deriving DecidableEq

/-- The `valid_options` table of the source: option name and its context. -/
def validOptions : List (String × Catalog) :=
  [("address", Catalog.foreignServer), ("port", Catalog.foreignServer),
   ("username", Catalog.userMapping), ("password", Catalog.userMapping),
   ("database", Catalog.foreignTable), ("query", Catalog.foreignTable),
   ("table", Catalog.foreignTable)]

/-- `mysqlIsValidOption`: linear scan of `valid_options` comparing context and name. -/
def mysqlIsValidOption (option : String) (context : Catalog) : Bool :=
  validOptions.any (fun o => decide (o.2 = context ∧ o.1 = option))

/-! ## `mysql_fdw_validator` -/

/-- The local variables of `mysql_fdw_validator` (`svr_address` .. `svr_table`);
`port` is the C `int` initialised to 0, the others are nullable pointers. -/
structure VState where
  address : Option String
  port : Int
  username : Option String
  password : Option String
  database : Option String
  query : Option String
  table : Option String
deriving DecidableEq

def vInit : VState := ⟨none, 0, none, none, none, none, none⟩

/-- The `ereport(ERROR, ...)` exits of `mysql_fdw_validator`. -/
inductive VErr
  | invalidName (n : String)
  | redundant (n : String)
  | conflictQueryTable
deriving DecidableEq

/-- One iteration of the `foreach(cell, options_list)` loop of
`mysql_fdw_validator`.  The C body is three successive if/else-if chains over
`def->defname`; since the tested names are pairwise distinct string literals,
at most one branch of the three chains fires, so the chains are written here
as a single dispatch on the name. -/
def validateStep (c : Catalog) (st : VState) (kv : String × String) : Except VErr VState :=
  if mysqlIsValidOption kv.1 c = false then
    Except.error (VErr.invalidName kv.1)
  else if kv.1 = "address" then
    if st.address.isSome then Except.error (VErr.redundant "address")
    else Except.ok { st with address := some kv.2 }
  else if kv.1 = "port" then
    -- C: `if (svr_port)` - the redundancy flag is the parsed integer itself
    if st.port ≠ 0 then Except.error (VErr.redundant "port")
    else Except.ok { st with port := atoi kv.2 }
  else if kv.1 = "username" then
    if st.username.isSome then Except.error (VErr.redundant "username")
    else Except.ok { st with username := some kv.2 }
  else if kv.1 = "password" then
    if st.password.isSome then Except.error (VErr.redundant "password")
    else Except.ok { st with password := some kv.2 }
  else if kv.1 = "database" then
    if st.database.isSome then Except.error (VErr.redundant "database")
    else Except.ok { st with database := some kv.2 }
  else if kv.1 = "query" then
    if st.table.isSome then Except.error VErr.conflictQueryTable
    else if st.query.isSome then Except.error (VErr.redundant "query")
    else Except.ok { st with query := some kv.2 }
  else if kv.1 = "table" then
    if st.query.isSome then Except.error VErr.conflictQueryTable
    else if st.table.isSome then Except.error (VErr.redundant "table")
    else Except.ok { st with table := some kv.2 }
  else
    Except.ok st

/-- The `foreach(cell, options_list)` loop of `mysql_fdw_validator`: run the
body on each option in order, aborting at the first `ereport(ERROR, ...)`. -/
def runValidator (c : Catalog) : VState → List (String × String) → Except VErr VState
  | st, [] => Except.ok st
  | st, kv :: rest =>
    match validateStep c st kv with
    | Except.error e => Except.error e
    | Except.ok st2 => runValidator c st2 rest

/-- `mysql_fdw_validator`: run the loop from the all-unset locals; on normal
completion the function returns void. -/
def mysql_fdw_validator (c : Catalog) (opts : List (String × String)) : Except VErr Unit :=
  (runValidator c vInit opts).map (fun _ => ())

/-! ## `mysqlGetOptions` -/

/-- The resolved connection options produced by `mysqlGetOptions`
(the out-parameters of the C function, after defaults). -/
structure ConnOptions where
  address : String
  port : Int
  username : Option String
  password : Option String
  database : Option String
  query : Option String
  table : Option String
deriving DecidableEq

/-- One iteration of the option loop of `mysqlGetOptions`: seven independent
`if (strcmp(def->defname, ...) == 0)` tests, each overwriting its
out-parameter, so a later occurrence of a key wins. -/
def applyOpt (st : VState) (kv : String × String) : VState :=
  { address := if kv.1 = "address" then some kv.2 else st.address
    port := if kv.1 = "port" then atoi kv.2 else st.port
    username := if kv.1 = "username" then some kv.2 else st.username
    password := if kv.1 = "password" then some kv.2 else st.password
    database := if kv.1 = "database" then some kv.2 else st.database
    query := if kv.1 = "query" then some kv.2 else st.query
    table := if kv.1 = "table" then some kv.2 else st.table }

/-- The single `ereport(ERROR, ...)` exit of `mysqlGetOptions`. -/
inductive OptErr
  | missingTableAndQuery
deriving DecidableEq

/-- The merged option list: table options, then server options, then
user-mapping options (`list_concat` in that order). -/
def mergedOptions (t s m : List (String × String)) : List (String × String) :=
  t ++ s ++ m

/-- `mysqlGetOptions`: scan the concatenated option lists, apply the
address/port defaults when unset (the port default fires whenever the parsed
integer is 0, since C tests `if (!*port)`), then require `table` or `query`. -/
def mysqlGetOptions (t s m : List (String × String)) : Except OptErr ConnOptions :=
  let st := (mergedOptions t s m).foldl applyOpt vInit
  let address := st.address.getD "127.0.0.1"
  let port : Int := if st.port = 0 then 3306 else st.port
  if st.table = none ∧ st.query = none then
    Except.error OptErr.missingTableAndQuery
  else
    Except.ok { address := address, port := port, username := st.username,
                password := st.password, database := st.database,
                query := st.query, table := st.table }

/-! ## Query construction (`mysqlBeginForeignScan` / `mysqlPlanForeignScan`) -/

/-- The effective query built by `mysqlBeginForeignScan`: the `query` option
verbatim, otherwise `snprintf(query, len, "SELECT * FROM %s", svr_table)`
(the allocated length `strlen(svr_table) + 15` never truncates).
`mysqlGetOptions` guarantees `table` is set when `query` is not; the
`getD` default mirrors that unreachable case. -/
def beginQuery (co : ConnOptions) : String :=
  match co.query with
  | some q => q
  | none => "SELECT * FROM " ++ co.table.getD ""

/-- The plan-time probe query of `mysqlPlanForeignScan`:
`snprintf("EXPLAIN %s", svr_query)` or `snprintf("EXPLAIN SELECT * FROM %s",
svr_table)`; the allocated lengths (`+9`, `+23`) never truncate. -/
def planQuery (co : ConnOptions) : String :=
  match co.query with
  | some q => "EXPLAIN " ++ q
  | none => "EXPLAIN SELECT * FROM " ++ co.table.getD ""

/-! ## The cost probe (`mysqlPlanForeignScan`) -/

/-- `row[8]` of one EXPLAIN result row, fed through `atof`.  A row with fewer
than nine fields, or a NULL ninth field, is undefined behaviour in the C
(`row[8]` out of bounds, or `atof(NULL)`); both collapse to `none` here.
`atofM` stands for libc `atof` (external to this source). -/
def rowEstimate (atofM : String → Rat) (row : List (Option String)) : Option Rat :=
  match row.getD 8 none with
  | some s => some (atofM s)
  | none => none

/-- One iteration of the row-estimate summation loop. -/
def sumStep (atofM : String → Rat) (acc : Option Rat) (row : List (Option String)) : Option Rat :=
  match acc, rowEstimate atofM row with
  | some a, some e => some (a + e)
  | _, _ => none

/-- The `while ((row = mysql_fetch_row(result))) rows += atof(row[8]);` loop,
starting from `rows = 0`; `none` when any row access is undefined. -/
def sumRowEstimates (atofM : String → Rat) (rows : List (List (Option String))) : Option Rat :=
  rows.foldl (sumStep atofM) (some 0)

/-- Outcomes of the remote calls made by the cost probe: whether `mysql_init`,
`mysql_real_connect`, `mysql_query` and `mysql_store_result` succeed, and the
rows the stored result yields. -/
structure PlanWorld where
  initOk : Bool
  connectOk : Bool
  queryOk : Bool
  storeOk : Bool
  resultRows : List (List (Option String))

/-- The fields of the returned `FdwPlan` plus the `baserel->rows` estimate. -/
structure FdwPlanOut where
  startup_cost : Rat
  total_cost : Rat
  rows : Rat
deriving DecidableEq

/-- The `ereport(ERROR, ...)` exits of `mysqlPlanForeignScan` (plus the
undefined `row[8]` access, which the C performs unchecked). -/
inductive PlanErr
  | missingOption
  | outOfMemory
  | connectFail
  | queryFail
  | storeFail
  | badRowAccess
deriving DecidableEq

/-- Result of the probe together with session-resource accounting:
`connAttempted` records that `mysql_real_connect` was reached on an
initialised handle, `connClosed` that `mysql_close` was called before exit. -/
structure PlanResult where
  res : Except PlanErr FdwPlanOut
  connAttempted : Bool
  connClosed : Bool

/-- `mysqlPlanForeignScan`: resolve options, derive the startup cost from the
address, connect, run the EXPLAIN probe, sum `atof(row[8])` over its rows,
and return `total_cost = rows + startup_cost`.  Error paths mirror the C
exactly: the connect-failure `ereport` does not close the handle; the
query/store failures call `mysql_close` first; success closes after the loop. -/
def mysqlPlanForeignScan (atofM : String → Rat) (w : PlanWorld)
    (t s m : List (String × String)) : PlanResult :=
  match mysqlGetOptions t s m with
  | Except.error _ =>
      { res := Except.error PlanErr.missingOption, connAttempted := false, connClosed := false }
  | Except.ok co =>
      let startup : Rat :=
        if co.address = "127.0.0.1" ∨ co.address = "localhost" then 10 else 25
      if w.initOk = false then
        { res := Except.error PlanErr.outOfMemory, connAttempted := false, connClosed := false }
      else if w.connectOk = false then
        { res := Except.error PlanErr.connectFail, connAttempted := true, connClosed := false }
      else if w.queryOk = false then
        { res := Except.error PlanErr.queryFail, connAttempted := true, connClosed := true }
      else if w.storeOk = false then
        { res := Except.error PlanErr.storeFail, connAttempted := true, connClosed := true }
      else
        match sumRowEstimates atofM w.resultRows with
        | none =>
            { res := Except.error PlanErr.badRowAccess, connAttempted := true, connClosed := false }
        | some rows =>
            { res := Except.ok { startup_cost := startup, total_cost := rows + startup, rows := rows },
              connAttempted := true, connClosed := true }

/-! ## `mysqlVerifymbstr` -/

/-- Lower-case hex digit. -/
def hexDigit (n : Nat) : Char :=
  if n < 10 then Char.ofNat (48 + n) else Char.ofNat (97 + (n - 10))

/-- `sprintf(p, "0x%02x", (unsigned char) b)` for one byte. -/
def byteHex (b : Nat) : String :=
  String.mk ['0', 'x', hexDigit (b % 256 / 16), hexDigit (b % 16)]

/-- The hex-dump loop of `mysqlVerifymbstr`: bytes as `0x%02x`, separated by
single spaces. -/
def hexFormat : List Nat → String
  | [] => ""
  | [b] => byteHex b
  | b :: bs => byteHex b ++ " " ++ hexFormat bs

/-- The WARNING diagnostic recorded by `mysqlVerifymbstr`: `hexBuf` is the
dump the function builds into its local `buf`; `reportedBytes` is what the
`errmsg` format actually embeds via `%s` on `mbstr` (the raw field bytes, up
to the first NUL). -/
structure EncodingWarning where
  hexBuf : String
  reportedBytes : List Nat
deriving DecidableEq

/-- `mysqlVerifymbstr(mbstr, len)`: recheck the bytes against the active
encoding (`pv` stands for `pg_verifymbstr(mbstr, len, true)`, `ml` for
`pg_encoding_mblen(GetDatabaseEncoding(), mbstr)`, both host-engine
externals).  On failure it builds a hex dump of the first
`min(min(l, len), 8)` bytes into `buf`, raises a WARNING whose message embeds
`mbstr` itself, and returns false. -/
def mysqlVerifymbstr (pv : List Nat → Nat → Bool) (ml : List Nat → Nat)
    (mbstr : List Nat) (len : Nat) : Bool × Option EncodingWarning :=
  if pv mbstr len = false then
    let l := ml mbstr
    let jlimit := min (min l len) 8
    let buf := hexFormat (mbstr.take jlimit)
    (false, some { hexBuf := buf, reportedBytes := mbstr.takeWhile (fun b => b ≠ 0) })
  else
    (true, none)

/-! ## Row materialization (`mysqlIterateForeignScan`) -/

/-- The per-column metadata the loop reads from the host descriptor:
`attrs[y]->attisdropped` and whether
`TypeCategory(meta->attioparams[y]) == TYPCATEGORY_STRING`. -/
structure AttMeta where
  attisdropped : Bool
  isStringCat : Bool
deriving DecidableEq

/-- One output cell: `nulls[y] = true` (with `dvalues[y] = 0`), or the value
`InputFunctionCall(&meta->attinfuncs[y], bytes, ...)`, kept symbolic as the
column index and the input byte string. -/
inductive Cell
  | null
  | inputCall (y : Nat) (bytes : List Nat)
deriving DecidableEq

/-- Length of the run of logically dropped columns starting at descriptor
position `y`: how many iterations the `while (attrs[y]->attisdropped)` loop
performs (reading past the descriptor end is undefined in C; here the run
simply stops there). -/
def droppedPads (attrs : List AttMeta) (y : Nat) : Nat :=
  ((attrs.drop y).takeWhile (fun a => a.attisdropped)).length

/-- Conversion of one remote field at output position `y` (the body after the
dropped-column while loop): NULL field, zero-length field (empty-string input
conversion), string-category encoding recheck, or plain input conversion. -/
def convertCell (attrs : List AttMeta) (pv : List Nat → Nat → Bool) (ml : List Nat → Nat)
    (f : Option (List Nat)) (y : Nat) : Cell × List EncodingWarning :=
  match f with
  | none => (Cell.null, [])
  | some bs =>
      if bs.length = 0 then
        (Cell.inputCall y [], [])
      else if (attrs.getD y ⟨false, false⟩).isStringCat then
        match mysqlVerifymbstr pv ml bs bs.length with
        | (false, w) => (Cell.null, w.toList)
        | (true, _) => (Cell.inputCall y bs, [])
      else
        (Cell.inputCall y bs, [])

/-- The `for (x = y = 0; x < festate->num_fields; x++, y++)` loop: for each
remote field, first pad `nulls[y] = true` while the host column at the output
position is dropped, then convert the field at the reached position.  The
result is the ordered list of `(y, cell)` writes into the `dvalues`/`nulls`
arrays, plus the encoding warnings raised along the way. -/
def convertRow (attrs : List AttMeta) (pv : List Nat → Nat → Bool) (ml : List Nat → Nat) :
    List (Option (List Nat)) → Nat → List (Nat × Cell) × List EncodingWarning
  | [], _ => ([], [])
  | f :: fs, y =>
      let run := droppedPads attrs y
      let pads := (List.range run).map (fun i => (y + i, Cell.null))
      let y2 := y + run
      let (cell, w) := convertCell attrs pv ml f y2
      let (rest, ws) := convertRow attrs pv ml fs (y2 + 1)
      (pads ++ (y2, cell) :: rest, w ++ ws)

/-! ## Scan lifecycle state and operations -/

/-- `MYSQL_RES`: the stored result rows (each row the nullable byte strings of
its fields) and the read position (`mysql_fetch_row` advances it,
`mysql_data_seek(result, 0)` resets it). -/
structure ResultCursor where
  rows : List (List (Option (List Nat)))
  pos : Nat
deriving DecidableEq

/-- `MySQLFdwExecutionState`: connection handle, result handle, query string,
field count. -/
structure FdwState where
  conn : Option Unit
  result : Option ResultCursor
  query : Option String
  num_fields : Nat
deriving DecidableEq

/-- Outcomes of the remote calls made by the scan: whether `mysql_query` and
`mysql_store_result` succeed, and the stored result's field count and rows. -/
structure ScanWorld where
  queryOk : Bool
  storeOk : Bool
  numFields : Nat
  resultRows : List (List (Option (List Nat)))

/-- The `ereport(ERROR, ...)` exits of `mysqlIterateForeignScan`. -/
inductive IterErr
  | queryFail
  | storeFail
deriving DecidableEq

/-- One `mysqlIterateForeignScan` call: the updated execution state, whether
the underlying connection is still open (`live`), the outcome (`ok (some
writes)` = a row stored into the slot, `ok none` = slot left cleared at end
of data), and the warnings raised. -/
structure IterOut where
  st : FdwState
  live : Bool
  out : Except IterErr (Option (List (Nat × Cell)))
  warns : List EncodingWarning

/-- The fetch-and-convert tail of `mysqlIterateForeignScan`:
`mysql_fetch_row` either yields the row at the cursor position (which is
converted; `mysql_fetch_row` returns exactly `num_fields` fields, modelled by
truncating the row to `num_fields`) or returns NULL and the slot stays empty. -/
def fetchOne (attrs : List AttMeta) (pv : List Nat → Nat → Bool) (ml : List Nat → Nat)
    (st : FdwState) (live : Bool) : IterOut :=
  match st.result with
  | some cur =>
      match cur.rows.get? cur.pos with
      | some row =>
          let conv := convertRow attrs pv ml (row.take st.num_fields) 0
          { st := { st with result := some { cur with pos := cur.pos + 1 } },
            live := live, out := Except.ok (some conv.1), warns := conv.2 }
      | none =>
          { st := st, live := live, out := Except.ok none, warns := [] }
  | none =>
      { st := st, live := live, out := Except.ok none, warns := [] }

/-- `mysqlIterateForeignScan`: on the first call (`festate->result == NULL`)
execute the query and store the result, remembering `num_fields`; failures
call `mysql_close(festate->conn)` (without clearing `festate->conn`) and
raise; then fetch the next row into the slot. -/
def mysqlIterateForeignScanOp (w : ScanWorld) (attrs : List AttMeta)
    (pv : List Nat → Nat → Bool) (ml : List Nat → Nat)
    (st : FdwState) (live : Bool) : IterOut :=
  match st.result with
  | none =>
      if w.queryOk = false then
        { st := st, live := false, out := Except.error IterErr.queryFail, warns := [] }
      else if w.storeOk = false then
        { st := st, live := false, out := Except.error IterErr.storeFail, warns := [] }
      else
        let st2 := { st with result := some { rows := w.resultRows, pos := 0 },
                             num_fields := w.numFields }
        fetchOne attrs pv ml st2 live
  | some _ => fetchOne attrs pv ml st live

/-- The `ereport(ERROR, ...)` exits of `mysqlBeginForeignScan`. -/
inductive BeginErr
  | missingOption
  | outOfMemory
  | connectFail
deriving DecidableEq

/-- Outcomes of the remote calls made by `mysqlBeginForeignScan`. -/
structure BeginWorld where
  initOk : Bool
  connectOk : Bool

/-- Result of `mysqlBeginForeignScan` with the same session accounting as the
probe. -/
structure BeginOut where
  res : Except BeginErr FdwState
  connAttempted : Bool
  connClosed : Bool

/-- `mysqlBeginForeignScan`: resolve options, connect, build the effective
query, and stash a fresh execution state (result NULL, num_fields 0).  The
connect-failure `ereport` does not close the initialised handle. -/
def mysqlBeginForeignScanOp (w : BeginWorld) (t s m : List (String × String)) : BeginOut :=
  match mysqlGetOptions t s m with
  | Except.error _ =>
      { res := Except.error BeginErr.missingOption, connAttempted := false, connClosed := false }
  | Except.ok co =>
      if w.initOk = false then
        { res := Except.error BeginErr.outOfMemory, connAttempted := false, connClosed := false }
      else if w.connectOk = false then
        { res := Except.error BeginErr.connectFail, connAttempted := true, connClosed := false }
      else
        { res := Except.ok
            { conn := some (), result := none, query := some (beginQuery co), num_fields := 0 },
          connAttempted := true, connClosed := false }

/-- `mysqlEndForeignScan`: free the result if held, close the connection if
open (clearing `festate->conn`), free the query string if held - each
independently null-checked.  Returns the final state and connection liveness. -/
def mysqlEndForeignScanOp (st : FdwState) (live : Bool) : FdwState × Bool :=
  let st1 := if st.result.isSome then { st with result := none } else st
  let p := if st1.conn.isSome then ({ st1 with conn := none }, false) else (st1, live)
  let st3 := if p.1.query.isSome then { p.1 with query := none } else p.1
  (st3, p.2)

/-- `mysqlReScanForeignScan`: `mysql_data_seek(result, 0)` when a result
exists, otherwise a no-op. -/
def mysqlReScanForeignScanOp (st : FdwState) : FdwState :=
  match st.result with
  | some cur => { st with result := some { cur with pos := 0 } }
  | none => st

/-! ## Helper lemmas -/

theorem fetchOne_live (attrs : List AttMeta) (pv : List Nat → Nat → Bool) (ml : List Nat → Nat)
    (st : FdwState) (live : Bool) : (fetchOne attrs pv ml st live).live = live := by
  unfold fetchOne
  split
  · split <;> rfl
  · rfl

theorem fetchOne_not_error (attrs : List AttMeta) (pv : List Nat → Nat → Bool) (ml : List Nat → Nat)
    (st : FdwState) (live : Bool) (e : IterErr) :
    (fetchOne attrs pv ml st live).out ≠ Except.error e := by
  unfold fetchOne
  split
  · split <;> simp
  · simp

theorem fetchOne_conn (attrs : List AttMeta) (pv : List Nat → Nat → Bool) (ml : List Nat → Nat)
    (st : FdwState) (live : Bool) : (fetchOne attrs pv ml st live).st.conn = st.conn := by
  unfold fetchOne
  split
  · split <;> rfl
  · rfl

/-! ## Concrete scenarios used by the claim theorems -/

/-- Host descriptor: a live column at position 0, a dropped column at position 1. -/
def attrsLiveDropped : List AttMeta := [⟨false, false⟩, ⟨true, false⟩]

/-- Encoding recheck that accepts everything. -/
def pvAll : List Nat → Nat → Bool := fun _ _ => true

/-- Constant `pg_encoding_mblen` stub. -/
def mlOne : List Nat → Nat := fun _ => 1

/-- Execution state as `mysqlBeginForeignScan` leaves it: open connection,
no result yet. -/
def beginState : FdwState := ⟨some (), none, some "SELECT * FROM t", 0⟩

/-- Remote behaviour for the dropped-column scenario: one row, one field. -/
def scanWorldC1 : ScanWorld := ⟨true, true, 1, [[some [49]]]⟩

/-- First and second iterate calls of the dropped-column scenario. -/
def iterC1first : IterOut :=
  mysqlIterateForeignScanOp scanWorldC1 attrsLiveDropped pvAll mlOne beginState true

def iterC1second : IterOut :=
  mysqlIterateForeignScanOp scanWorldC1 attrsLiveDropped pvAll mlOne iterC1first.st iterC1first.live

/-- A ten-byte sequence treated as invalid for the active encoding. -/
def invalidBytes : List Nat := [255, 254, 253, 252, 251, 250, 249, 248, 247, 246]

/-- Host descriptor: one live string-category column. -/
def attrsStr : List AttMeta := [⟨false, true⟩]

/-- Encoding recheck that rejects exactly `invalidBytes`. -/
def pvC2 : List Nat → Nat → Bool := fun bs _ => decide (bs ≠ invalidBytes)

/-- `pg_encoding_mblen` stub reporting a 16-byte character, so the 8-byte cap
of the hex dump is what limits it. -/
def mlC2 : List Nat → Nat := fun _ => 16

/-- Remote behaviour for the encoding scenario: a row with the invalid field,
then a row with a valid field. -/
def scanWorldC2 : ScanWorld := ⟨true, true, 1, [[some invalidBytes], [some [49]]]⟩

def iterC2first : IterOut :=
  mysqlIterateForeignScanOp scanWorldC2 attrsStr pvC2 mlC2 beginState true

def iterC2second : IterOut :=
  mysqlIterateForeignScanOp scanWorldC2 attrsStr pvC2 mlC2 iterC2first.st iterC2first.live

/-- A probe world in which `mysql_real_connect` fails. -/
def planWorldC3 : PlanWorld := ⟨true, false, true, true, []⟩

def planC3 : PlanResult := mysqlPlanForeignScan (fun _ => 0) planWorldC3 [("table", "t")] [] []

def beginC3 : BeginOut := mysqlBeginForeignScanOp ⟨true, false⟩ [("table", "t")] [] []

/-- A scan world in which `mysql_query` fails. -/
def scanWorldC4 : ScanWorld := ⟨false, true, 0, []⟩

def iterC4 : IterOut := mysqlIterateForeignScanOp scanWorldC4 [] pvAll mlOne beginState true

/-! ## Claim theorems -/

/-- Claim C1 (failing evaluation): with host descriptor `[live, dropped]`
(dropped column at position k = 1) and a one-field remote row, the first
iterate call emits the row but writes only position 0 - the trailing dropped
position 1 is never filled with a null placeholder, so the emitted row does
not have the host descriptor length 2 and position 1 is not null in it; the
second call reports end of data after the single row. -/
theorem c1_trailing_dropped_column_skipped :
    iterC1first.out = Except.ok (some [(0, Cell.inputCall 0 [49])])
    ∧ iterC1second.out = Except.ok none
    ∧ attrsLiveDropped.length = 2
    ∧ (attrsLiveDropped.getD 1 ⟨false, false⟩).attisdropped = true :=
  ⟨rfl, rfl, rfl, rfl⟩

/-- Claim C2 (failing evaluation): an invalid ten-byte string field is emitted
as null with a warning recorded and the next row still processed, but the
warning's message embeds the raw offending bytes (`reportedBytes`, all ten of
them, via `%s` on `mbstr`), not the hex dump: the 8-byte-capped dump is built
into the local `buf` (`hexBuf` below) and then never used by the `errmsg`. -/
theorem c2_warning_reports_raw_bytes_not_hexdump :
    iterC2first.out = Except.ok (some [(0, Cell.null)])
    ∧ iterC2first.warns =
        [{ hexBuf := "0xff 0xfe 0xfd 0xfc 0xfb 0xfa 0xf9 0xf8", reportedBytes := invalidBytes }]
    ∧ iterC2second.out = Except.ok (some [(0, Cell.inputCall 0 [49])])
    ∧ invalidBytes.length = 10 :=
  ⟨rfl, rfl, rfl, rfl⟩

/-- Claim C3 counterexample: when `mysql_real_connect` fails after a
successful `mysql_init`, both the cost probe and scan-begin raise the error
without ever calling `mysql_close` on the initialised handle, so a session
exit path after a connection attempt does not close the session. -/
theorem c3_counterexample :
    planC3.connAttempted = true ∧ planC3.connClosed = false
    ∧ planC3.res = Except.error PlanErr.connectFail
    ∧ beginC3.connAttempted = true ∧ beginC3.connClosed = false :=
  ⟨rfl, rfl, rfl, rfl, rfl⟩

/-- Claim C4 counterexample: when `mysql_query` fails inside iterate, the
connection is closed (`live = false`) but the state's session-handle field is
left non-null, so the closed connection stays reachable through the state. -/
theorem c4_counterexample :
    iterC4.st.conn = some () ∧ iterC4.live = false
    ∧ iterC4.out = Except.error IterErr.queryFail :=
  ⟨rfl, rfl, rfl⟩

/-- Claim C7 counterexample: the option list `[port=0, port=3306]` has the
single-valued key `port` twice, yet validation succeeds, because the
redundancy flag for `port` is the parsed integer itself and `atoi("0") = 0`. -/
theorem c7_counterexample :
    (([("port", "0"), ("port", "3306")] : List (String × String)).countP
        (fun kv => decide (kv.1 = "port")) = 2)
    ∧ mysql_fdw_validator Catalog.foreignServer [("port", "0"), ("port", "3306")]
        = Except.ok () :=
  ⟨by decide, rfl⟩

/-- Claim C9 counterexample: a table-level option list containing neither
`table` nor `query` is nevertheless rejected by the validator (here for a
redundant `database`), so the validator does not accept every such list. -/
theorem c9_counterexample :
    (∀ kv ∈ ([("database", "a"), ("database", "b")] : List (String × String)),
        kv.1 ≠ "table" ∧ kv.1 ≠ "query")
    ∧ mysql_fdw_validator Catalog.foreignTable [("database", "a"), ("database", "b")]
        = Except.error (VErr.redundant "database") :=
  ⟨by decide, rfl⟩

/-- The RemoteSession invariant: the state's session-handle field is non-null
only while the underlying connection is open. -/
def connInvariant (st : FdwState) (live : Bool) : Prop :=
  st.conn.isSome = true → live = true

/-- Claim C3 (amended): once the connection has been successfully established
(`mysql_real_connect` succeeded), every exit path closes the session: the
cost probe (its EXPLAIN rows being well-formed) closes the transient session
whether it fails at query execution, at result materialization, or succeeds;
and every error exit of the scan's iterate closes the scan session before
the error propagates.  (The connect-failure exit, by contrast, leaks the
initialised handle - see the counterexample.) -/
theorem c3_amended (atofM : String → Rat) (w : PlanWorld) (t s m : List (String × String))
    (hc : w.connectOk = true)
    (hr : (sumRowEstimates atofM w.resultRows).isSome = true) :
    ((mysqlPlanForeignScan atofM w t s m).connAttempted = true →
      (mysqlPlanForeignScan atofM w t s m).connClosed = true)
    ∧ (∀ (sw : ScanWorld) (attrs : List AttMeta) (pv : List Nat → Nat → Bool)
        (ml : List Nat → Nat) (st : FdwState) (live : Bool) (e : IterErr),
        (mysqlIterateForeignScanOp sw attrs pv ml st live).out = Except.error e →
        (mysqlIterateForeignScanOp sw attrs pv ml st live).live = false) := by
  constructor
  · unfold mysqlPlanForeignScan
    cases hopt : mysqlGetOptions t s m with
    | error e => simp
    | ok co =>
      obtain ⟨r, hrq⟩ := Option.isSome_iff_exists.mp hr
      dsimp only
      simp only [hc, hrq]
      split_ifs <;> simp_all
  · intro sw attrs pv ml st live e
    unfold mysqlIterateForeignScanOp
    cases hres : st.result with
    | some cur =>
      dsimp only
      intro herr
      exact absurd herr (fetchOne_not_error attrs pv ml _ live e)
    | none =>
      dsimp only
      by_cases hq : sw.queryOk = false
      · simp [hq]
      · rw [if_neg hq]
        by_cases hs : sw.storeOk = false
        · simp [hs]
        · rw [if_neg hs]
          intro herr
          exact absurd herr (fetchOne_not_error attrs pv ml _ live e)

/-- A probe world whose query execution fails on an established connection. -/
def planWorldQFail : PlanWorld := ⟨true, true, false, true, []⟩

/-- Witness for the amended claim C3 at concrete inputs: a probe whose
`mysql_query` fails closes its session, and an iterate whose `mysql_query`
fails closes the scan session. -/
theorem c3_amended_witness :
    (mysqlPlanForeignScan (fun _ => 0) planWorldQFail [("table", "t")] [] []).connClosed = true
    ∧ (mysqlIterateForeignScanOp scanWorldC4 [] pvAll mlOne beginState true).live = false :=
  ⟨(c3_amended (fun _ => 0) planWorldQFail [("table", "t")] [] [] rfl rfl).1 rfl,
   (c3_amended (fun _ => 0) planWorldQFail [("table", "t")] [] [] rfl rfl).2
      scanWorldC4 [] pvAll mlOne beginState true IterErr.queryFail rfl⟩

/-- Claim C4 (amended): begin establishes the invariant (a successful begin
yields a non-null handle on an open connection), iterate's success exits,
rescan and end all preserve it (end always clears the handle when closing);
but iterate's error exits violate it: they close the connection while leaving
the handle field non-null (see the counterexample). -/
theorem c4_amended :
    (∀ (w : BeginWorld) (t s m : List (String × String)) (st : FdwState),
        (mysqlBeginForeignScanOp w t s m).res = Except.ok st →
        st.conn.isSome = true ∧ (mysqlBeginForeignScanOp w t s m).connClosed = false)
    ∧ (∀ (sw : ScanWorld) (attrs : List AttMeta) (pv : List Nat → Nat → Bool)
        (ml : List Nat → Nat) (st : FdwState) (live : Bool)
        (v : Option (List (Nat × Cell))),
        connInvariant st live →
        (mysqlIterateForeignScanOp sw attrs pv ml st live).out = Except.ok v →
        connInvariant (mysqlIterateForeignScanOp sw attrs pv ml st live).st
          (mysqlIterateForeignScanOp sw attrs pv ml st live).live)
    ∧ (∀ (st : FdwState) (live : Bool),
        connInvariant st live → connInvariant (mysqlReScanForeignScanOp st) live)
    ∧ (∀ (st : FdwState) (live : Bool),
        connInvariant (mysqlEndForeignScanOp st live).1 (mysqlEndForeignScanOp st live).2) := by
  refine ⟨?_, ?_, ?_, ?_⟩
  · intro w t s m st
    unfold mysqlBeginForeignScanOp
    cases hopt : mysqlGetOptions t s m with
    | error e => intro hok; exact absurd hok (by simp)
    | ok co =>
      dsimp only
      by_cases hi : w.initOk = false
      · rw [if_pos hi]; intro hok; exact absurd hok (by simp)
      · rw [if_neg hi]
        by_cases hcn : w.connectOk = false
        · rw [if_pos hcn]; intro hok; exact absurd hok (by simp)
        · rw [if_neg hcn]
          intro hok
          simp only [Except.ok.injEq] at hok
          subst hok
          exact ⟨rfl, rfl⟩
  · intro sw attrs pv ml st live v hinv
    unfold mysqlIterateForeignScanOp
    cases hres : st.result with
    | some cur =>
      dsimp only
      intro _ hconn
      rw [fetchOne_live attrs pv ml _ live]
      exact hinv (by rw [← fetchOne_conn attrs pv ml st live]; exact hconn)
    | none =>
      dsimp only
      by_cases hq : sw.queryOk = false
      · rw [if_pos hq]; intro hok; exact absurd hok (by simp)
      · rw [if_neg hq]
        by_cases hs : sw.storeOk = false
        · rw [if_pos hs]; intro hok; exact absurd hok (by simp)
        · rw [if_neg hs]
          intro _ hconn
          rw [fetchOne_live attrs pv ml _ live]
          refine hinv ?_
          rw [fetchOne_conn attrs pv ml _ live] at hconn
          exact hconn
  · intro st live hinv
    unfold mysqlReScanForeignScanOp
    cases hres : st.result with
    | some cur => intro hconn; exact hinv hconn
    | none => exact hinv
  · intro st live
    unfold mysqlEndForeignScanOp connInvariant
    by_cases h1 : st.result.isSome <;> by_cases h2 : st.conn.isSome <;>
      by_cases h3 : st.query.isSome <;> simp [h1, h2, h3]

/-- Witness for the amended claim C4 at concrete inputs: a successful begin,
a successful iterate, a rescan and an end, each leaving the invariant intact. -/
theorem c4_amended_witness :
    ((mysqlBeginForeignScanOp ⟨true, true⟩ [("table", "orders")] [] []).connClosed = false)
    ∧ connInvariant
        (mysqlIterateForeignScanOp scanWorldC1 attrsLiveDropped pvAll mlOne beginState true).st
        (mysqlIterateForeignScanOp scanWorldC1 attrsLiveDropped pvAll mlOne beginState true).live
    ∧ connInvariant (mysqlReScanForeignScanOp beginState) true
    ∧ connInvariant (mysqlEndForeignScanOp beginState true).1
        (mysqlEndForeignScanOp beginState true).2 :=
  ⟨(c4_amended.1 ⟨true, true⟩ [("table", "orders")] [] []
      ⟨some (), none, some "SELECT * FROM orders", 0⟩ rfl).2,
   c4_amended.2.1 scanWorldC1 attrsLiveDropped pvAll mlOne beginState true
      (some [(0, Cell.inputCall 0 [49])]) (fun _ => rfl) rfl,
   c4_amended.2.2.1 beginState true (fun _ => rfl),
   c4_amended.2.2.2 beginState true⟩

/-- Folding the estimate summation over rows whose estimate field is
well-defined yields the accumulator plus the sum of the estimates. -/
theorem sumStep_foldl (atofM : String → Rat) :
    ∀ (rows : List (List (Option String))) (a : Rat),
    (∀ r ∈ rows, (rowEstimate atofM r).isSome = true) →
    rows.foldl (sumStep atofM) (some a)
      = some (a + (rows.map (fun r => (rowEstimate atofM r).getD 0)).sum) := by
  intro rows
  induction rows with
  | nil => intro a _; simp
  | cons r rs ih =>
    intro a h
    obtain ⟨e, he⟩ := Option.isSome_iff_exists.mp (h r (by simp))
    simp only [List.foldl_cons, sumStep, he]
    rw [ih (a + e) (fun x hx => h x (by simp [hx]))]
    simp [he, add_assoc]

/-- Claim C10: the probe reads field index 8 of every EXPLAIN row unchecked;
under the precondition that every returned row has at least nine fields with
a non-null ninth field, the summation is well-defined (never hits the
undefined-access case) and equals the sum of the per-row estimates. -/
theorem c10_sum_welldefined_under_precondition (atofM : String → Rat)
    (rows : List (List (Option String)))
    (h : ∀ r ∈ rows, 9 ≤ r.length ∧ (r.getD 8 none).isSome = true) :
    sumRowEstimates atofM rows
      = some ((rows.map (fun r => (rowEstimate atofM r).getD 0)).sum) := by
  unfold sumRowEstimates
  have h2 : ∀ r ∈ rows, (rowEstimate atofM r).isSome = true := by
    intro r hr
    obtain ⟨-, hsome⟩ := h r hr
    obtain ⟨v, hv⟩ := Option.isSome_iff_exists.mp hsome
    unfold rowEstimate
    rw [hv]
    rfl
  rw [sumStep_foldl atofM rows 0 h2, zero_add]

/-- An EXPLAIN row with nine fields whose ninth is non-null. -/
def explainRow9 : List (Option String) :=
  [none, none, none, none, none, none, none, none, some "5"]

/-- Witness for claim C10 at a concrete one-row result. -/
theorem c10_witness :
    (∀ r ∈ [explainRow9], 9 ≤ r.length ∧ (r.getD 8 none).isSome = true)
    ∧ sumRowEstimates (fun _ => 5) [explainRow9]
        = some (([explainRow9].map (fun r => (rowEstimate (fun _ => 5) r).getD 0)).sum) :=
  ⟨by decide, c10_sum_welldefined_under_precondition (fun _ => 5) [explainRow9] (by decide)⟩

/-- Claim C5: whenever the cost probe returns a plan, its startup cost is 10
for a resolved address of `127.0.0.1` or `localhost` and 25 otherwise, its
row estimate is the sum of the row-estimate column over all EXPLAIN rows,
and its total cost is the row estimate plus the startup cost. -/
theorem c5_cost_model (atofM : String → Rat) (w : PlanWorld) (t s m : List (String × String))
    (co : ConnOptions) (p : FdwPlanOut)
    (hopt : mysqlGetOptions t s m = Except.ok co)
    (hres : (mysqlPlanForeignScan atofM w t s m).res = Except.ok p) :
    p.startup_cost = (if co.address = "127.0.0.1" ∨ co.address = "localhost" then 10 else 25)
    ∧ sumRowEstimates atofM w.resultRows = some p.rows
    ∧ p.total_cost = p.rows + p.startup_cost := by
  unfold mysqlPlanForeignScan at hres
  rw [hopt] at hres
  dsimp only at hres
  by_cases hi : w.initOk = false
  · rw [if_pos hi] at hres; exact absurd hres (by simp)
  · rw [if_neg hi] at hres
    by_cases hcn : w.connectOk = false
    · rw [if_pos hcn] at hres; exact absurd hres (by simp)
    · rw [if_neg hcn] at hres
      by_cases hq : w.queryOk = false
      · rw [if_pos hq] at hres; exact absurd hres (by simp)
      · rw [if_neg hq] at hres
        by_cases hs : w.storeOk = false
        · rw [if_pos hs] at hres; exact absurd hres (by simp)
        · rw [if_neg hs] at hres
          cases hsum : sumRowEstimates atofM w.resultRows with
          | none => rw [hsum] at hres; exact absurd hres (by simp)
          | some rows =>
            rw [hsum] at hres
            simp only [Except.ok.injEq] at hres
            subst hres
            exact ⟨rfl, rfl, rfl⟩

/-- A probe world where every remote call succeeds and the EXPLAIN result is
the single well-formed row. -/
def planWorldC5 : PlanWorld := ⟨true, true, true, true, [explainRow9]⟩

/-- The options resolved for table `orders` on server `db.example.com`. -/
def co5val : ConnOptions :=
  ⟨"db.example.com", 3306, none, none, none, none, some "orders"⟩

/-- The plan the probe produces in that world. -/
def p5val : FdwPlanOut := ⟨25, 30, 5⟩

/-- Witness for claim C5 at concrete inputs: remote table `orders` on a
non-local address with a single EXPLAIN row estimating 5 rows gives startup
cost 25, row estimate 5 and total cost 30. -/
theorem c5_witness :
    p5val.startup_cost
      = (if co5val.address = "127.0.0.1" ∨ co5val.address = "localhost" then 10 else 25)
    ∧ sumRowEstimates (fun _ => 5) planWorldC5.resultRows = some p5val.rows
    ∧ p5val.total_cost = p5val.rows + p5val.startup_cost :=
  c5_cost_model (fun _ => 5) planWorldC5 [("table", "orders")] [("address", "db.example.com")] []
    co5val p5val
    (by simp [mysqlGetOptions, mergedOptions, applyOpt, vInit, co5val])
    (by simp [mysqlPlanForeignScan, mysqlGetOptions, mergedOptions, applyOpt, vInit,
              planWorldC5, sumRowEstimates, sumStep, rowEstimate, explainRow9, p5val, co5val]
        norm_num)

/-- The ConnectionOptions invariant enforced by the validator: exactly one of
`query` / `table` is set. -/
def exactlyOneQueryTable (co : ConnOptions) : Prop :=
  (co.query.isSome = true ∧ co.table = none) ∨ (co.query = none ∧ co.table.isSome = true)

/-- Claim C6: under the query/table mutual-exclusion invariant, the effective
query is the raw `query` option verbatim when `query` is set and
`SELECT * FROM <table>` when `table` is set, and the plan-time probe query is
exactly the effective query prefixed with `EXPLAIN `. -/
theorem c6_effective_and_probe_query (co : ConnOptions) (h : exactlyOneQueryTable co) :
    planQuery co = "EXPLAIN " ++ beginQuery co
    ∧ (∀ q, co.query = some q → beginQuery co = q)
    ∧ (∀ tb, co.table = some tb → beginQuery co = "SELECT * FROM " ++ tb) := by
  refine ⟨?_, ?_, ?_⟩
  · unfold planQuery beginQuery
    cases hq : co.query with
    | some q => rfl
    | none =>
      rw [← String.append_assoc]
      rfl
  · intro q hq
    unfold beginQuery
    rw [hq]
  · intro tb htb
    unfold beginQuery
    rcases h with ⟨hqs, htn⟩ | ⟨hqn, hts⟩
    · rw [htb] at htn
      exact absurd htn (by simp)
    · rw [hqn, htb]
      rfl

/-- Resolved options for the `orders` end-to-end scenario of the claim. -/
def coOrders : ConnOptions := ⟨"127.0.0.1", 3306, none, none, none, none, some "orders"⟩

/-- Witness for claim C6: table option `orders` gives effective query
`SELECT * FROM orders` and probe query `EXPLAIN SELECT * FROM orders`. -/
theorem c6_witness :
    planQuery coOrders = "EXPLAIN " ++ beginQuery coOrders
    ∧ beginQuery coOrders = "SELECT * FROM " ++ "orders" :=
  ⟨(c6_effective_and_probe_query coOrders (Or.inr ⟨rfl, rfl⟩)).1,
   (c6_effective_and_probe_query coOrders (Or.inr ⟨rfl, rfl⟩)).2.2 "orders" rfl⟩

/-- An option list with all `port` entries removed. -/
def stripPort (l : List (String × String)) : List (String × String) :=
  l.filter (fun kv => decide (kv.1 ≠ "port"))

/-- Folding the option scan from two states that agree on every field except
`port` yields results that agree on every field except `port`. -/
theorem foldl_applyOpt_ext :
    ∀ (l : List (String × String)) (st st' : VState),
    st.address = st'.address → st.username = st'.username → st.password = st'.password →
    st.database = st'.database → st.query = st'.query → st.table = st'.table →
    ∀ p : Int,
      ({ l.foldl applyOpt st with port := p } : VState)
        = { l.foldl applyOpt st' with port := p } := by
  intro l
  induction l with
  | nil =>
    intro st st' h1 h2 h3 h4 h5 h6 p
    cases st; cases st'
    simp_all
  | cons kv l ih =>
    intro st st' h1 h2 h3 h4 h5 h6 p
    simp only [List.foldl_cons]
    exact ih (applyOpt st kv) (applyOpt st' kv)
      (by simp [applyOpt, h1]) (by simp [applyOpt, h2]) (by simp [applyOpt, h3])
      (by simp [applyOpt, h4]) (by simp [applyOpt, h5]) (by simp [applyOpt, h6]) p

/-- Removing the `port` entries before the option scan changes nothing but
the scanned `port` value, which stays at its initial value. -/
theorem foldl_applyOpt_stripPort :
    ∀ (l : List (String × String)) (st : VState),
    (stripPort l).foldl applyOpt st = { l.foldl applyOpt st with port := st.port } := by
  intro l
  induction l with
  | nil => intro st; rfl
  | cons kv l ih =>
    intro st
    by_cases hp : kv.1 = "port"
    · have hstrip : stripPort (kv :: l) = stripPort l := by simp [stripPort, hp]
      rw [hstrip, ih st, List.foldl_cons]
      exact foldl_applyOpt_ext l st (applyOpt st kv)
        (by simp [applyOpt, hp]) (by simp [applyOpt, hp]) (by simp [applyOpt, hp])
        (by simp [applyOpt, hp]) (by simp [applyOpt, hp]) (by simp [applyOpt, hp]) st.port
    · have hstrip : stripPort (kv :: l) = kv :: stripPort l := by simp [stripPort, hp]
      rw [hstrip, List.foldl_cons, List.foldl_cons, ih (applyOpt st kv)]
      have hport : (applyOpt st kv).port = st.port := by simp [applyOpt, hp]
      rw [hport]

/-- Claim C8: when the merged options carry a `port` whose `atoi` value is 0
(for instance the string `"0"` or a non-numeric string), resolution behaves
exactly as if no `port` option had been given, and the resolved port is the
default 3306 - because the default fires whenever the parsed integer is 0. -/
theorem c8_port_zero_gets_default (t s m : List (String × String))
    (h : ((mergedOptions t s m).foldl applyOpt vInit).port = 0) :
    mysqlGetOptions t s m = mysqlGetOptions (stripPort t) (stripPort s) (stripPort m)
    ∧ (∀ co, mysqlGetOptions t s m = Except.ok co → co.port = 3306) := by
  have key : ∀ st : VState, st.port = 0 → ({ st with port := vInit.port } : VState) = st := by
    intro st hp
    cases st
    simp_all [vInit]
  constructor
  · have hm : mergedOptions (stripPort t) (stripPort s) (stripPort m)
        = stripPort (mergedOptions t s m) := by
      simp [mergedOptions, stripPort, List.filter_append]
    unfold mysqlGetOptions
    rw [hm, foldl_applyOpt_stripPort, key _ h]
  · intro co hok
    unfold mysqlGetOptions at hok
    dsimp only at hok
    by_cases hc : ((mergedOptions t s m).foldl applyOpt vInit).table = none
        ∧ ((mergedOptions t s m).foldl applyOpt vInit).query = none
    · rw [if_pos hc] at hok
      exact absurd hok (by simp)
    · rw [if_neg hc] at hok
      simp only [Except.ok.injEq] at hok
      subst hok
      simp [h]

/-- The options resolved when the supplied port parses to 0. -/
def co8val : ConnOptions := ⟨"127.0.0.1", 3306, none, none, none, none, some "orders"⟩

/-- Witness for claim C8: table `orders` with `port "0"` resolves identically
to the same lists without the port entry, and the port becomes 3306. -/
theorem c8_witness :
    mysqlGetOptions [("table", "orders")] [("port", "0")] []
      = mysqlGetOptions (stripPort [("table", "orders")]) (stripPort [("port", "0")]) (stripPort [])
    ∧ co8val.port = 3306 :=
  ⟨(c8_port_zero_gets_default [("table", "orders")] [("port", "0")] [] (by decide)).1,
   (c8_port_zero_gets_default [("table", "orders")] [("port", "0")] [] (by decide)).2
      co8val (by rfl)⟩

/-- The seven single-valued option keys the validator tracks. -/
inductive OptKey
  | address | port | username | password | database | query | table
deriving DecidableEq

/-- The option name of each key. -/
def keyName : OptKey → String
  | OptKey.address => "address"
  | OptKey.port => "port"
  | OptKey.username => "username"
  | OptKey.password => "password"
  | OptKey.database => "database"
  | OptKey.query => "query"
  | OptKey.table => "table"

/-- Whether the validator's local for key `k` counts as already set: non-null
pointer for the string options, nonzero parsed integer for `port`. -/
def keyIsSet (k : OptKey) (st : VState) : Bool :=
  match k with
  | OptKey.address => st.address.isSome
  | OptKey.port => decide (st.port ≠ 0)
  | OptKey.username => st.username.isSome
  | OptKey.password => st.password.isSome
  | OptKey.database => st.database.isSome
  | OptKey.query => st.query.isSome
  | OptKey.table => st.table.isSome

/-- A step on a name invalid for the submitted catalog errors immediately. -/
theorem validateStep_invalid (c : Catalog) (st : VState) (kv : String × String)
    (h : mysqlIsValidOption kv.1 c = false) :
    validateStep c st kv = Except.error (VErr.invalidName kv.1) := by
  unfold validateStep
  rw [if_pos h]

/-- Evaluation of one validator step on a valid `address` option. -/
theorem validateStep_address_eq (c : Catalog) (st : VState) (v : String)
    (hval : mysqlIsValidOption "address" c = true) :
    validateStep c st ("address", v)
      = (if st.address.isSome = true then Except.error (VErr.redundant "address")
         else Except.ok { st with address := some v }) := by
  simp [validateStep, hval]

/-- Evaluation of one validator step on a valid `port` option. -/
theorem validateStep_port_eq (c : Catalog) (st : VState) (v : String)
    (hval : mysqlIsValidOption "port" c = true) :
    validateStep c st ("port", v)
      = (if st.port ≠ 0 then Except.error (VErr.redundant "port")
         else Except.ok { st with port := atoi v }) := by
  simp [validateStep, hval]

/-- Evaluation of one validator step on a valid `username` option. -/
theorem validateStep_username_eq (c : Catalog) (st : VState) (v : String)
    (hval : mysqlIsValidOption "username" c = true) :
    validateStep c st ("username", v)
      = (if st.username.isSome = true then Except.error (VErr.redundant "username")
         else Except.ok { st with username := some v }) := by
  simp [validateStep, hval]

/-- Evaluation of one validator step on a valid `password` option. -/
theorem validateStep_password_eq (c : Catalog) (st : VState) (v : String)
    (hval : mysqlIsValidOption "password" c = true) :
    validateStep c st ("password", v)
      = (if st.password.isSome = true then Except.error (VErr.redundant "password")
         else Except.ok { st with password := some v }) := by
  simp [validateStep, hval]

/-- Evaluation of one validator step on a valid `database` option. -/
theorem validateStep_database_eq (c : Catalog) (st : VState) (v : String)
    (hval : mysqlIsValidOption "database" c = true) :
    validateStep c st ("database", v)
      = (if st.database.isSome = true then Except.error (VErr.redundant "database")
         else Except.ok { st with database := some v }) := by
  simp [validateStep, hval]

/-- Evaluation of one validator step on a valid `query` option. -/
theorem validateStep_query_eq (c : Catalog) (st : VState) (v : String)
    (hval : mysqlIsValidOption "query" c = true) :
    validateStep c st ("query", v)
      = (if st.table.isSome = true then Except.error VErr.conflictQueryTable
         else if st.query.isSome = true then Except.error (VErr.redundant "query")
         else Except.ok { st with query := some v }) := by
  simp [validateStep, hval]

/-- Evaluation of one validator step on a valid `table` option. -/
theorem validateStep_table_eq (c : Catalog) (st : VState) (v : String)
    (hval : mysqlIsValidOption "table" c = true) :
    validateStep c st ("table", v)
      = (if st.query.isSome = true then Except.error VErr.conflictQueryTable
         else if st.table.isSome = true then Except.error (VErr.redundant "table")
         else Except.ok { st with table := some v }) := by
  simp [validateStep, hval]

set_option maxHeartbeats 2000000 in
/-- A successful validator step never unsets a redundancy flag. -/
theorem validateStep_mono (c : Catalog) (st st2 : VState) (kv : String × String) (k : OptKey)
    (hstep : validateStep c st kv = Except.ok st2)
    (hset : keyIsSet k st = true) : keyIsSet k st2 = true := by
  unfold validateStep at hstep
  split_ifs at hstep <;>
    first
      | exact Except.noConfusion hstep
      | (simp only [Except.ok.injEq] at hstep; subst hstep;
         cases k <;>
           first
             | rfl
             | exact hset
             | exact absurd (of_decide_eq_true hset) (by assumption))

/-- Running the loop further never unsets a redundancy flag. -/
theorem runValidator_mono (c : Catalog) (k : OptKey) :
    ∀ (l : List (String × String)) (st st2 : VState),
    runValidator c st l = Except.ok st2 →
    keyIsSet k st = true → keyIsSet k st2 = true := by
  intro l
  induction l with
  | nil =>
    intro st st2 h hset
    simp only [runValidator, Except.ok.injEq] at h
    subst h
    exact hset
  | cons kv l ih =>
    intro st st2 h hset
    simp only [runValidator] at h
    cases hstep : validateStep c st kv with
    | error e => rw [hstep] at h; exact absurd h (by simp)
    | ok st1 =>
      rw [hstep] at h
      exact ih st1 st2 h (validateStep_mono c st st1 kv k hstep hset)

/-- A step on an already-set key errors (with a redundancy, conflict or
invalid-name report, each of them an abort). -/
theorem validateStep_dup (c : Catalog) (st : VState) (k : OptKey) (v : String)
    (hset : keyIsSet k st = true) :
    ∃ e, validateStep c st (keyName k, v) = Except.error e := by
  cases k with
  | address =>
    by_cases hvq : mysqlIsValidOption "address" c = false
    · exact ⟨_, validateStep_invalid c st ("address", v) hvq⟩
    · have hval : mysqlIsValidOption "address" c = true := by simpa using hvq
      exact ⟨VErr.redundant "address", by
        simp only [keyName]
        rw [validateStep_address_eq c st v hval,
            if_pos (show st.address.isSome = true from hset)]⟩
  | port =>
    by_cases hvq : mysqlIsValidOption "port" c = false
    · exact ⟨_, validateStep_invalid c st ("port", v) hvq⟩
    · have hval : mysqlIsValidOption "port" c = true := by simpa using hvq
      exact ⟨VErr.redundant "port", by
        simp only [keyName]
        rw [validateStep_port_eq c st v hval, if_pos (of_decide_eq_true hset)]⟩
  | username =>
    by_cases hvq : mysqlIsValidOption "username" c = false
    · exact ⟨_, validateStep_invalid c st ("username", v) hvq⟩
    · have hval : mysqlIsValidOption "username" c = true := by simpa using hvq
      exact ⟨VErr.redundant "username", by
        simp only [keyName]
        rw [validateStep_username_eq c st v hval,
            if_pos (show st.username.isSome = true from hset)]⟩
  | password =>
    by_cases hvq : mysqlIsValidOption "password" c = false
    · exact ⟨_, validateStep_invalid c st ("password", v) hvq⟩
    · have hval : mysqlIsValidOption "password" c = true := by simpa using hvq
      exact ⟨VErr.redundant "password", by
        simp only [keyName]
        rw [validateStep_password_eq c st v hval,
            if_pos (show st.password.isSome = true from hset)]⟩
  | database =>
    by_cases hvq : mysqlIsValidOption "database" c = false
    · exact ⟨_, validateStep_invalid c st ("database", v) hvq⟩
    · have hval : mysqlIsValidOption "database" c = true := by simpa using hvq
      exact ⟨VErr.redundant "database", by
        simp only [keyName]
        rw [validateStep_database_eq c st v hval,
            if_pos (show st.database.isSome = true from hset)]⟩
  | query =>
    by_cases hvq : mysqlIsValidOption "query" c = false
    · exact ⟨_, validateStep_invalid c st ("query", v) hvq⟩
    · have hval : mysqlIsValidOption "query" c = true := by simpa using hvq
      by_cases htab : st.table.isSome = true
      · exact ⟨VErr.conflictQueryTable, by
          simp only [keyName]
          rw [validateStep_query_eq c st v hval, if_pos htab]⟩
      · exact ⟨VErr.redundant "query", by
          simp only [keyName]
          rw [validateStep_query_eq c st v hval, if_neg htab,
              if_pos (show st.query.isSome = true from hset)]⟩
  | table =>
    by_cases hvq : mysqlIsValidOption "table" c = false
    · exact ⟨_, validateStep_invalid c st ("table", v) hvq⟩
    · have hval : mysqlIsValidOption "table" c = true := by simpa using hvq
      by_cases hq : st.query.isSome = true
      · exact ⟨VErr.conflictQueryTable, by
          simp only [keyName]
          rw [validateStep_table_eq c st v hval, if_pos hq]⟩
      · exact ⟨VErr.redundant "table", by
          simp only [keyName]
          rw [validateStep_table_eq c st v hval, if_neg hq,
              if_pos (show st.table.isSome = true from hset)]⟩

/-- A successful step on key `k` (with, for `port`, a value parsing nonzero)
sets that key's flag. -/
theorem validateStep_sets (c : Catalog) (st st2 : VState) (k : OptKey) (v : String)
    (hstep : validateStep c st (keyName k, v) = Except.ok st2)
    (hv : k = OptKey.port → atoi v ≠ 0) :
    keyIsSet k st2 = true := by
  cases k with
  | address =>
    simp only [keyName] at hstep
    by_cases hvq : mysqlIsValidOption "address" c = false
    · rw [validateStep_invalid c st ("address", v) hvq] at hstep
      exact Except.noConfusion hstep
    · have hval : mysqlIsValidOption "address" c = true := by simpa using hvq
      rw [validateStep_address_eq c st v hval] at hstep
      by_cases hs : st.address.isSome = true
      · rw [if_pos hs] at hstep; exact Except.noConfusion hstep
      · rw [if_neg hs] at hstep
        simp only [Except.ok.injEq] at hstep
        subst hstep
        rfl
  | port =>
    simp only [keyName] at hstep
    by_cases hvq : mysqlIsValidOption "port" c = false
    · rw [validateStep_invalid c st ("port", v) hvq] at hstep
      exact Except.noConfusion hstep
    · have hval : mysqlIsValidOption "port" c = true := by simpa using hvq
      rw [validateStep_port_eq c st v hval] at hstep
      by_cases hs : st.port ≠ 0
      · rw [if_pos hs] at hstep; exact Except.noConfusion hstep
      · rw [if_neg hs] at hstep
        simp only [Except.ok.injEq] at hstep
        subst hstep
        exact decide_eq_true (hv rfl)
  | username =>
    simp only [keyName] at hstep
    by_cases hvq : mysqlIsValidOption "username" c = false
    · rw [validateStep_invalid c st ("username", v) hvq] at hstep
      exact Except.noConfusion hstep
    · have hval : mysqlIsValidOption "username" c = true := by simpa using hvq
      rw [validateStep_username_eq c st v hval] at hstep
      by_cases hs : st.username.isSome = true
      · rw [if_pos hs] at hstep; exact Except.noConfusion hstep
      · rw [if_neg hs] at hstep
        simp only [Except.ok.injEq] at hstep
        subst hstep
        rfl
  | password =>
    simp only [keyName] at hstep
    by_cases hvq : mysqlIsValidOption "password" c = false
    · rw [validateStep_invalid c st ("password", v) hvq] at hstep
      exact Except.noConfusion hstep
    · have hval : mysqlIsValidOption "password" c = true := by simpa using hvq
      rw [validateStep_password_eq c st v hval] at hstep
      by_cases hs : st.password.isSome = true
      · rw [if_pos hs] at hstep; exact Except.noConfusion hstep
      · rw [if_neg hs] at hstep
        simp only [Except.ok.injEq] at hstep
        subst hstep
        rfl
  | database =>
    simp only [keyName] at hstep
    by_cases hvq : mysqlIsValidOption "database" c = false
    · rw [validateStep_invalid c st ("database", v) hvq] at hstep
      exact Except.noConfusion hstep
    · have hval : mysqlIsValidOption "database" c = true := by simpa using hvq
      rw [validateStep_database_eq c st v hval] at hstep
      by_cases hs : st.database.isSome = true
      · rw [if_pos hs] at hstep; exact Except.noConfusion hstep
      · rw [if_neg hs] at hstep
        simp only [Except.ok.injEq] at hstep
        subst hstep
        rfl
  | query =>
    simp only [keyName] at hstep
    by_cases hvq : mysqlIsValidOption "query" c = false
    · rw [validateStep_invalid c st ("query", v) hvq] at hstep
      exact Except.noConfusion hstep
    · have hval : mysqlIsValidOption "query" c = true := by simpa using hvq
      rw [validateStep_query_eq c st v hval] at hstep
      by_cases htab : st.table.isSome = true
      · rw [if_pos htab] at hstep; exact Except.noConfusion hstep
      · rw [if_neg htab] at hstep
        by_cases hs : st.query.isSome = true
        · rw [if_pos hs] at hstep; exact Except.noConfusion hstep
        · rw [if_neg hs] at hstep
          simp only [Except.ok.injEq] at hstep
          subst hstep
          rfl
  | table =>
    simp only [keyName] at hstep
    by_cases hvq : mysqlIsValidOption "table" c = false
    · rw [validateStep_invalid c st ("table", v) hvq] at hstep
      exact Except.noConfusion hstep
    · have hval : mysqlIsValidOption "table" c = true := by simpa using hvq
      rw [validateStep_table_eq c st v hval] at hstep
      by_cases hq : st.query.isSome = true
      · rw [if_pos hq] at hstep; exact Except.noConfusion hstep
      · rw [if_neg hq] at hstep
        by_cases hs : st.table.isSome = true
        · rw [if_pos hs] at hstep; exact Except.noConfusion hstep
        · rw [if_neg hs] at hstep
          simp only [Except.ok.injEq] at hstep
          subst hstep
          rfl

/-- The validator loop distributes over list append. -/
theorem runValidator_append (c : Catalog) :
    ∀ (l1 l2 : List (String × String)) (st : VState),
    runValidator c st (l1 ++ l2)
      = match runValidator c st l1 with
        | Except.error e => Except.error e
        | Except.ok st1 => runValidator c st1 l2 := by
  intro l1
  induction l1 with
  | nil => intro l2 st; rfl
  | cons kv l ih =>
    intro l2 st
    simp only [List.cons_append, runValidator]
    cases hstep : validateStep c st kv with
    | error e => rfl
    | ok st1 => exact ih l2 st1

/-- Claim C7 (amended): a repeated single-valued option is rejected for
`address`, `username`, `password`, `database`, `query` and `table`
unconditionally; a repeated `port` is rejected provided an earlier `port`
occurrence parsed (`atoi`) to a nonzero integer - otherwise the repeat is
silently accepted (see the counterexample). -/
theorem c7_amended (c : Catalog) (k : OptKey) (v1 v2 : String)
    (l1 l2 l3 : List (String × String))
    (hport : k = OptKey.port → atoi v1 ≠ 0) :
    ∃ e, mysql_fdw_validator c (l1 ++ (keyName k, v1) :: (l2 ++ (keyName k, v2) :: l3))
        = Except.error e := by
  have main : ∃ e, runValidator c vInit (l1 ++ (keyName k, v1) :: (l2 ++ (keyName k, v2) :: l3))
      = Except.error e := by
    rw [runValidator_append]
    cases h1 : runValidator c vInit l1 with
    | error e => exact ⟨e, rfl⟩
    | ok st1 =>
      simp only [runValidator]
      cases hstep : validateStep c st1 (keyName k, v1) with
      | error e => exact ⟨e, rfl⟩
      | ok st2 =>
        have hset2 : keyIsSet k st2 = true := validateStep_sets c st1 st2 k v1 hstep hport
        dsimp only
        rw [runValidator_append]
        cases h2 : runValidator c st2 l2 with
        | error e => exact ⟨e, rfl⟩
        | ok st3 =>
          have hset3 : keyIsSet k st3 = true := runValidator_mono c k l2 st2 st3 h2 hset2
          obtain ⟨e, he⟩ := validateStep_dup c st3 k v2 hset3
          refine ⟨e, ?_⟩
          simp only [runValidator, he]
  obtain ⟨e, he⟩ := main
  exact ⟨e, by unfold mysql_fdw_validator; rw [he]; rfl⟩

/-- Witness for the amended claim C7: a duplicated `address` at server level
is rejected. -/
theorem c7_amended_witness :
    (mysql_fdw_validator Catalog.foreignServer
        ([] ++ (keyName OptKey.address, "10.0.0.1")
          :: ([] ++ (keyName OptKey.address, "10.0.0.2") :: []))).isOk = false := by
  obtain ⟨e, he⟩ := c7_amended Catalog.foreignServer OptKey.address "10.0.0.1" "10.0.0.2" [] [] []
    (fun h => absurd h (by decide))
  rw [he]
  rfl

/-- The names valid at table level are exactly `database`, `query`, `table`. -/
theorem isValidOption_foreignTable (n : String) :
    mysqlIsValidOption n Catalog.foreignTable = true
      ↔ (n = "database" ∨ n = "query" ∨ n = "table") := by
  constructor
  · intro h
    simp [mysqlIsValidOption, validOptions] at h
    rcases h with h | h | h <;> simp [h]
  · intro h
    rcases h with h | h | h <;> subst h <;> rfl

/-- If no `query` option occurs, the option scan leaves `query` untouched. -/
theorem foldl_applyOpt_no_query :
    ∀ (l : List (String × String)) (st : VState),
    (∀ kv ∈ l, kv.1 ≠ "query") → (l.foldl applyOpt st).query = st.query := by
  intro l
  induction l with
  | nil => intro st _; rfl
  | cons kv l ih =>
    intro st h
    rw [List.foldl_cons, ih _ (fun x hx => h x (by simp [hx]))]
    simp [applyOpt, h kv (by simp)]

/-- If no `table` option occurs, the option scan leaves `table` untouched. -/
theorem foldl_applyOpt_no_table :
    ∀ (l : List (String × String)) (st : VState),
    (∀ kv ∈ l, kv.1 ≠ "table") → (l.foldl applyOpt st).table = st.table := by
  intro l
  induction l with
  | nil => intro st _; rfl
  | cons kv l ih =>
    intro st h
    rw [List.foldl_cons, ih _ (fun x hx => h x (by simp [hx]))]
    simp [applyOpt, h kv (by simp)]

/-- Claim C9 (amended): the validator itself never enforces the presence of
`table` or `query` - any table-level list of context-valid, non-repeated
options without them (necessarily `database` options, of which at most one)
is accepted; the at-least-one requirement lives solely in option resolution,
which errors whenever the merged options contain neither key.  (The
validator can still reject such a list for other reasons, e.g. a repeated
`database` - see the counterexample.) -/
theorem c9_amended :
    (∀ (opts : List (String × String)),
        (∀ kv ∈ opts, mysqlIsValidOption kv.1 Catalog.foreignTable = true
            ∧ kv.1 ≠ "query" ∧ kv.1 ≠ "table") →
        opts.Pairwise (fun a b => a.1 ≠ b.1) →
        mysql_fdw_validator Catalog.foreignTable opts = Except.ok ())
    ∧ (∀ t s m : List (String × String),
        (∀ kv ∈ mergedOptions t s m, kv.1 ≠ "query" ∧ kv.1 ≠ "table") →
        mysqlGetOptions t s m = Except.error OptErr.missingTableAndQuery) := by
  constructor
  · intro opts hvalid hpw
    have hdb : ∀ kv ∈ opts, kv.1 = "database" := by
      intro kv hkv
      obtain ⟨hv, hq, ht⟩ := hvalid kv hkv
      rcases (isValidOption_foreignTable kv.1).mp hv with h | h | h
      · exact h
      · exact absurd h hq
      · exact absurd h ht
    cases opts with
    | nil => rfl
    | cons kv rest =>
      cases rest with
      | nil =>
        obtain ⟨k, v⟩ := kv
        have h1 : k = "database" := hdb (k, v) (by simp)
        subst h1
        rfl
      | cons kv2 rest2 =>
        have h1 : kv.1 = "database" := hdb kv (by simp)
        have h2 : kv2.1 = "database" := hdb kv2 (by simp)
        have hne : kv.1 ≠ kv2.1 := (List.pairwise_cons.mp hpw).1 kv2 (by simp)
        rw [h1, h2] at hne
        exact absurd rfl hne
  · intro t s m h
    have hq : ((mergedOptions t s m).foldl applyOpt vInit).query = none :=
      foldl_applyOpt_no_query _ vInit (fun kv hkv => (h kv hkv).1)
    have ht : ((mergedOptions t s m).foldl applyOpt vInit).table = none :=
      foldl_applyOpt_no_table _ vInit (fun kv hkv => (h kv hkv).2)
    unfold mysqlGetOptions
    dsimp only
    rw [if_pos ⟨ht, hq⟩]

/-- Witness for the amended claim C9: a lone `database` option passes the
validator, while resolution of `database` plus `address` (no table, no
query) fails with the missing-option error. -/
theorem c9_amended_witness :
    mysql_fdw_validator Catalog.foreignTable [("database", "mydb")] = Except.ok ()
    ∧ mysqlGetOptions [("database", "mydb")] [("address", "h")] []
        = Except.error OptErr.missingTableAndQuery :=
  ⟨c9_amended.1 [("database", "mydb")] (by decide) (by decide),
   c9_amended.2 [("database", "mydb")] [("address", "h")] [] (by decide)⟩

end MysqlFdw
